import Mathlib

/-!
Shallow embedding of the conversational intake engine of the
telegram-wordpress-bot repository (src/bot.js, the validation service, the
WordPress API client and the user controller), together with proofs of the
testable properties stated for it.

Conventions used throughout:
* JS strings are modelled by Lean `String`; operations (trim, toLowerCase,
  regex tests) are re-implemented on the underlying `List Char`, restricted
  to the code points the bot actually handles (ASCII and the Cyrillic
  block), which is noted at each definition.
* JS timestamps (`Date`) are modelled as natural numbers of milliseconds.
* The asynchronous WordPress calls are modelled by passing the response of
  the external sink as an explicit argument.
-/

namespace WPBot

/-! ### Character classes of the JS regexes -/

/-- The character class of the JS `\s` regex escape (also the set trimmed by
`String.prototype.trim`): tab, line feed, vertical tab, form feed, carriage
return, space, and the Unicode space separators. -/
def jsWhitespace (c : Char) : Bool :=
  let n := c.toNat
  n = 9 || n = 10 || n = 11 || n = 12 || n = 13 || n = 32 ||
  n = 0xA0 || n = 0x1680 || (decide (0x2000 ≤ n) && decide (n ≤ 0x200A)) ||
  n = 0x2028 || n = 0x2029 || n = 0x202F || n = 0x205F || n = 0x3000 || n = 0xFEFF

/-- JS `String.prototype.trim`: drop leading and trailing whitespace. -/
def jsTrimList (l : List Char) : List Char :=
  ((l.dropWhile jsWhitespace).reverse.dropWhile jsWhitespace).reverse

/-- JS `String.prototype.trim` on `String`. -/
def jsTrim (s : String) : String :=
  String.mk (jsTrimList s.data)

/-- JS `String.prototype.toLowerCase`, restricted to the ASCII Latin and
Cyrillic letters handled by this bot (on all other characters it is the
identity, matching JS on every string that occurs in the bot). -/
def jsToLowerChar (c : Char) : Char :=
  let n := c.toNat
  if 65 ≤ n ∧ n ≤ 90 then Char.ofNat (n + 32)
  else if 0x410 ≤ n ∧ n ≤ 0x42F then Char.ofNat (n + 0x20)
  else if 0x400 ≤ n ∧ n ≤ 0x40F then Char.ofNat (n + 0x50)
  else c

/-- Lower-casing of a whole string. -/
def jsToLower (s : String) : String :=
  String.mk (s.data.map jsToLowerChar)

/-- JS `String.prototype.startsWith`, computed on the code points. -/
def strStartsWith (s p : String) : Bool :=
  p.data.isPrefixOf s.data

/-- Substring containment (an unanchored regex literal such as `/test/`). -/
def containsSub (s pat : List Char) : Bool :=
  s.tails.any fun t => pat.isPrefixOf t

/-- The JS regex `/(.)\1{3,}/`: some character occurs at least 4 times in a
row. -/
def hasRepeat4 : List Char → Bool
  | a :: b :: c :: d :: rest =>
      (a = b && b = c && c = d) || hasRepeat4 (b :: c :: d :: rest)
  | _ => false

/-- ASCII letter, the class of the JS regex `/^[a-z]+$/i`. -/
def isAsciiLetter (c : Char) : Bool :=
  let n := c.toNat
  (decide (65 ≤ n) && decide (n ≤ 90)) || (decide (97 ≤ n) && decide (n ≤ 122))

/-! ### ValidationService (src/services/validationService.js) -/

/-- The character class of the name pattern
`/^[а-яёА-ЯЁa-zA-Z\s\-]{2,50}$/`: Russian Cyrillic lower and upper case
(U+0430–U+044F, U+0410–U+042F) plus Ё/ё, ASCII Latin, whitespace and the
hyphen.  Note that this class does not contain the Ukrainian-specific
letters і, ї, є, ґ. -/
def isNameClassChar (c : Char) : Bool :=
  let n := c.toNat
  (decide (0x430 ≤ n) && decide (n ≤ 0x44F)) || n = 0x451 ||
  (decide (0x410 ≤ n) && decide (n ≤ 0x42F)) || n = 0x401 ||
  isAsciiLetter c || jsWhitespace c || c = '-'

/-- The anchored name pattern `/^[а-яёА-ЯЁa-zA-Z\s\-]{2,50}$/` applied to the
trimmed name. -/
def nameRegexTest (t : List Char) : Bool :=
  decide (2 ≤ t.length) && decide (t.length ≤ 50) && t.all isNameClassChar

/-- The `suspiciousPatterns` array of `validateName`: the case-insensitive
literals test, admin, bot, spam, fake, qwerty, asdf; the ASCII-only
heuristic `/^[a-z]+$/i`; and a run of 4 equal characters `/(.)\1{3,}/`. -/
def suspiciousName (t : List Char) : Bool :=
  let low := t.map jsToLowerChar
  containsSub low ['t', 'e', 's', 't'] ||
  containsSub low ['a', 'd', 'm', 'i', 'n'] ||
  containsSub low ['b', 'o', 't'] ||
  containsSub low ['s', 'p', 'a', 'm'] ||
  containsSub low ['f', 'a', 'k', 'e'] ||
  containsSub low ['q', 'w', 'e', 'r', 't', 'y'] ||
  containsSub low ['a', 's', 'd', 'f'] ||
  (!t.isEmpty && t.all isAsciiLetter) ||
  hasRepeat4 t

/-- `ValidationService.validateName`: falsy check, trim, length 2–50,
anchored character-class pattern, digit check (`/\d/`), and the
suspicious-pattern deny list.  The trimmed name is recomputed at each step,
standing for the local variable `trimmedName` of the source. -/
def validateName (name : String) : Bool :=
  if name == "" then false
  else if (jsTrimList name.data).length < 2 ∨ 50 < (jsTrimList name.data).length then false
  else if !(nameRegexTest (jsTrimList name.data)) then false
  else if (jsTrimList name.data).any Char.isDigit then false
  else !(suspiciousName (jsTrimList name.data))

/-- The characters removed by `phone.replace(/[\s\-\(\)]/g, '')`. -/
def phoneStrippable (c : Char) : Bool :=
  jsWhitespace c || c = '-' || c = '(' || c = ')'

/-- `cleanPhone`: the phone with whitespace, hyphens and parentheses
removed. -/
def phoneClean (l : List Char) : List Char :=
  l.filter fun c => !(phoneStrippable c)

/-- The body class `[\d\s\-\(\)]` of the phone pattern. -/
def isPhoneBodyChar (c : Char) : Bool :=
  c.isDigit || jsWhitespace c || c = '-' || c = '(' || c = ')'

/-- Between 10 and 15 characters of the phone body class, the `{10,15}$`
part of the pattern. -/
def phoneBodyOk (r : List Char) : Bool :=
  decide (10 ≤ r.length) && decide (r.length ≤ 15) && r.all isPhoneBodyChar

/-- The base phone pattern `/^(\+7|8)[\d\s\-\(\)]{10,15}$/` of the
validation service, applied (as in the source) to the *raw* input. -/
def phoneRegexTest : List Char → Bool
  | [] => false
  | [c] => if c = '8' then phoneBodyOk [] else false
  | c₁ :: c₂ :: rest =>
      if c₁ = '+' ∧ c₂ = '7' then phoneBodyOk rest
      else if c₁ = '8' then phoneBodyOk (c₂ :: rest)
      else false

/-- The body of `ValidationService.validatePhone` after the falsy check:
the base pattern on the raw input, then the length checks on the cleaned
input, which require a `+38` prefix (length 13) or a `0` prefix
(length 11). -/
def validatePhoneCore (l : List Char) : Bool :=
  if phoneRegexTest l = false then false
  else if ['+', '3', '8'].isPrefixOf (phoneClean l) then decide ((phoneClean l).length = 13)
  else if ['0'].isPrefixOf (phoneClean l) then decide ((phoneClean l).length = 11)
  else false

/-- `ValidationService.validatePhone`. -/
def validatePhone (phone : String) : Bool :=
  if phone == "" then false
  else validatePhoneCore phone.data

/-- `ValidationService.normalizePhone`: returns the input unchanged when
`validatePhone` rejects it; otherwise strips the formatting characters and
forces a `+38` prefix (`8XXX… ↦ +38XXX…`, otherwise prepend `+38` unless
already present). -/
def normalizePhone (phone : String) : String :=
  if validatePhone phone = false then phone
  else
    if ['8'].isPrefixOf (phoneClean phone.data) then
      String.mk ('+' :: '3' :: '8' :: (phoneClean phone.data).drop 1)
    else if (['+', '3', '8'].isPrefixOf (phoneClean phone.data)) = false then
      String.mk ('+' :: '3' :: '8' :: phoneClean phone.data)
    else
      String.mk (phoneClean phone.data)

/-! ### WordPressAPI (src/services/wordpressAPI.js) -/

/-- JS truthiness of an optional number (`0` and `undefined` are falsy). -/
def truthyN : Option Nat → Bool
  | none => false
  | some n => !(n = 0)

/-- JS truthiness of an optional string (`''` and `undefined` are falsy). -/
def truthyS : Option String → Bool
  | none => false
  | some s => !(s == "")

/-- The class `[^\s@]` of the e-mail pattern. -/
def emailClassChar (c : Char) : Bool :=
  !(jsWhitespace c) && !(c = '@')

/-- `WordPressAPI.isValidEmail`, the pattern `/^[^\s@]+@[^\s@]+\.[^\s@]+$/`:
a non-empty class run, an `@`, and a part that contains a `.` with at least
one class character on each side. -/
def isValidEmailWP (s : String) : Bool :=
  let l := s.data
  let before := l.takeWhile fun c => !(c = '@')
  match l.drop before.length with
  | '@' :: p =>
      !before.isEmpty && before.all emailClassChar && p.all emailClassChar &&
      ((p.take (p.length - 1)).drop 1).contains '.'
  | _ => false

/-- `WordPressAPI.isValidPhone`, the pattern `/^(\+380|0)\d{9}$/`. -/
def isValidPhoneWP (s : String) : Bool :=
  match s.data with
  | '+' :: '3' :: '8' :: '0' :: r => decide (r.length = 9) && r.all Char.isDigit
  | '0' :: r => decide (r.length = 9) && r.all Char.isDigit
  | _ => false

/-- The accumulated application-form data (`ctx.session.userData` of
src/bot.js).  The `email` field is never written by this bot variant but is
read by the WordPress client, so it is kept as an always-absent field. -/
structure UserData where
  telegram_id : Option Nat := none
  username : Option String := none
  first_name : Option String := none
  last_name : Option String := none
  name : Option String := none
  age : Option String := none
  phone : Option String := none
  education : Option String := none
  vacancy : Option String := none
  message : Option String := none
  email : Option String := none
deriving DecidableEq

/-- The payload built by `WordPressAPI.submitUserData` (`title` duplicates
the name). -/
structure Payload where
  telegram_id : Option Nat := none
  title : Option String := none
  name : Option String := none
  phone : Option String := none
  email : Option String := none
  message : Option String := none
deriving DecidableEq

/-- Payload construction of `submitUserData`. -/
def payloadOf (d : UserData) : Payload :=
  { telegram_id := d.telegram_id, title := d.name, name := d.name,
    phone := d.phone, email := d.email, message := d.message }

/-- `WordPressAPI.validateSubmissionData`: required truthy fields
`telegram_id`, `title`, `phone`; a format check on `email` only when it is
truthy; and the phone pattern. -/
def validateSubmissionData (p : Payload) : Bool :=
  truthyN p.telegram_id && truthyS p.title && truthyS p.phone &&
  (!(truthyS p.email) || isValidEmailWP (p.email.getD "")) &&
  isValidPhoneWP (p.phone.getD "")

/-- One response of the external record sink, as seen through axios: a 2xx
success carrying the created id, a 4xx rejection, a 5xx server error, a
timeout (`ECONNABORTED`), or a network error without a response. -/
inductive SinkResp where
  | ok (id : Nat)
  | client4xx
  | server5xx
  | timeout
  | netErr
deriving DecidableEq

/-- The result object returned by `submitUserData`. -/
structure SubResult where
  success : Bool
  id : Option Nat := none
  error : Option String := none
deriving DecidableEq

/-- `WordPressAPI.submitUserData` together with `retrySubmission`, driven by
a sink that maps the index of the delivery attempt to its response, and by a
fuel bound (`none` means the recursion did not terminate within the fuel).

In the source, a timeout or 5xx response makes `submitUserData` call
`retrySubmission(userData, 1)`; `retrySubmission` checks `attempt > 3`,
waits, and re-enters `submitUserData`.  Since `submitUserData` catches all
its own errors and returns (it never throws), the `attempt + 1` arm of
`retrySubmission` is unreachable and every entry into `retrySubmission`
carries `attempt = 1`; its guard is therefore embedded as the literal test
`3 < 1` kept at the call sites. -/
def submitUserDataM (sink : Nat → SinkResp) (d : UserData) : Nat → Nat → Option SubResult
  | 0, _ => none
  | fuel + 1, calls =>
    if validateSubmissionData (payloadOf d) = false then
      some { success := false, error := some "Invalid submission data" }
    else
      match sink calls with
      | .ok i => some { success := true, id := some i }
      | .client4xx => some { success := false, error := some "request failed" }
      | .netErr => some { success := false, error := some "network error" }
      | .server5xx =>
          if 3 < 1 then some { success := false, error := some "Max retries exceeded" }
          else submitUserDataM sink d fuel (calls + 1)
      | .timeout =>
          if 3 < 1 then some { success := false, error := some "Max retries exceeded" }
          else submitUserDataM sink d fuel (calls + 1)

/-! ### UserController (src/controllers/userController.js) -/

/-- The block-related part of a `userCache` entry.  The fields `reason`,
`blockedAt` and `blockedUntil` are deleted on unblock, hence optional. -/
structure CachedUser where
  blocked : Bool := false
  reason : Option String := none
  blockedAt : Option Nat := none
  blockedUntil : Option Nat := none
deriving DecidableEq

/-- The result object of `checkUserBlock`. -/
structure BlockStatus where
  blocked : Bool
  reason : Option String := none
  blockedUntil : Option Nat := none
  remainingTime : Option Nat := none
deriving DecidableEq

/-- `UserController.blockUser`: mark the (possibly absent) cache entry
blocked until `now + durationMin` minutes. -/
def blockUser (entry : Option CachedUser) (now : Nat) (reason : String)
    (durationMin : Nat) : CachedUser :=
  { entry.getD {} with
      blocked := true
      reason := some reason
      blockedAt := some now
      blockedUntil := some (now + durationMin * 60000) }

/-- `UserController.checkUserBlock`: an absent or unblocked entry is not
blocked; an expired block self-heals on read (the entry is rewritten);
otherwise the block is reported with the remaining time in minutes,
`Math.ceil((blockedUntil - now) / 1000 / 60)`.  The `blockedUntil = none`
arm mirrors a blocked entry without an expiry, which `blockUser` never
produces. -/
def checkUserBlock (entry : Option CachedUser) (now : Nat) :
    BlockStatus × Option CachedUser :=
  match entry with
  | none => ({ blocked := false }, none)
  | some u =>
    if u.blocked = false then ({ blocked := false }, some u)
    else
      match u.blockedUntil with
      | some bu =>
          if bu < now then
            ({ blocked := false },
             some { u with blocked := false, reason := none,
                           blockedAt := none, blockedUntil := none })
          else
            ({ blocked := true, reason := u.reason, blockedUntil := some bu,
               remainingTime := some ((bu - now + 59999) / 60000) }, some u)
      | none => ({ blocked := true, reason := u.reason }, some u)

/-- The named action counters read by the risk computation (the JS
`stats.actions` map holds arbitrary action names; only these four are ever
read, an absent key reading as 0). -/
structure ActionCounts where
  validation_failed : Nat := 0
  cancel : Nat := 0
  start : Nat := 0
  submit_attempt : Nat := 0
deriving DecidableEq

/-- The per-user statistics record of `updateUserStats`. -/
structure UserStats where
  totalActions : Nat := 0
  actions : ActionCounts := {}
deriving DecidableEq

/-- `UserController.calculateRiskScore`.  `timeDiffMin` is the elapsed time
`(now - firstSeen)` in minutes.  The two ratio checks divide by
`totalActions`; in JS, `0 / 0` is `NaN` (every comparison false) while
`k / 0` for `k > 0` is `Infinity` (greater than any bound), which the
`totalActions = 0` arms reproduce.  The sequential `score +=` updates are
summed, and the result saturates at 100 via `Math.min`. -/
def calculateRiskScore (stats : UserStats) (timeDiffMin : Rat) : Nat :=
  min
    ((if 5 < (stats.totalActions : Rat) / max timeDiffMin 1 then 30 else 0) +
     (if 10 < (stats.totalActions : Rat) / max timeDiffMin 1 then 40 else 0) +
     (if stats.totalActions = 0 then
        (if stats.actions.validation_failed = 0 then 0 else 25)
      else if (1 : Rat) / 2 <
          (stats.actions.validation_failed : Rat) / (stats.totalActions : Rat) then 25
      else 0) +
     (if stats.totalActions = 0 then
        (if stats.actions.cancel = 0 then 0 else 20)
      else if (3 : Rat) / 10 <
          (stats.actions.cancel : Rat) / (stats.totalActions : Rat) then 20
      else 0) +
     (if 10 < stats.actions.start then 15 else 0) +
     (if 5 < stats.actions.submit_attempt then 25 else 0))
    100

/-! ### Conversation state machine (src/bot.js) -/

/-- The `ctx.session.step` values of src/bot.js. -/
inductive Step where
  | idle
  | awaiting_name
  | awaiting_age
  | awaiting_phone
  | awaiting_education
  | awaiting_vacancy
  | awaiting_message
  | awaiting_complaint_name
  | awaiting_complaint_text
deriving DecidableEq

/-- The accumulated complaint data (`ctx.session.complaintData`).  The
`submitted_at` and `type` fields set by `submitComplaint` immediately before
the sink call never outlive that call (the map is reset right after) and are
not modelled. -/
structure ComplaintData where
  telegram_id : Option Nat := none
  username : Option String := none
  first_name : Option String := none
  last_name : Option String := none
  name : Option String := none
  complaint_text : Option String := none
deriving DecidableEq

/-- A conversation session (`ctx.session`). -/
structure Session where
  step : Step := .idle
  userData : UserData := {}
  complaintData : ComplaintData := {}
  attempts : Nat := 0
deriving DecidableEq

/-- The sender of a message (`ctx.from`). -/
structure TgUser where
  id : Nat
  username : Option String := none
  first_name : Option String := none
  last_name : Option String := none
deriving DecidableEq

/-- The possible outcome of the `wpAPI.submitComplaint(...)` call site: a
result object (success flag and optional id), a falsy result, or a thrown
error.  In the shipped code the `WordPressAPI` class has no
`submitComplaint` method at all, so the call always throws; the other arms
cover the outcomes the handler is written for. -/
inductive ComplaintApi where
  | result (success : Bool) (id : Option Nat)
  | noResult
  | thrown
deriving DecidableEq

/-- The user-visible outcome of processing one text event, abstracting the
replies of src/bot.js. -/
inductive Outcome where
  | advanced
  | reprompted
  | tooLongReprompt
  | attemptsExhausted
  | cancelled
  | applicationResult (success : Bool)
  | complaintSuccessAck (id : Option Nat)
  | menu
  | info
  | formStarted
  | complaintFormStarted
  | helpShown
  | idleHint
deriving DecidableEq

/-- Session effect of `cancelProcess`: back to idle, `userData` emptied,
attempt counter cleared.  `complaintData` is not touched. -/
def cancelSession (sess : Session) : Session :=
  { sess with step := .idle, userData := {}, attempts := 0 }

/-- Session effect of `showMainMenu` (identical reset; `complaintData` is
again not touched). -/
def showMainMenuS (sess : Session) : Session :=
  { sess with step := .idle, userData := {}, attempts := 0 }

/-- Session effect of `startForm`: seed `userData` from the sender and await
the name.  The attempt counter is not reset by this handler. -/
def startFormS (u : TgUser) (sess : Session) : Session :=
  { sess with
      step := .awaiting_name
      userData := { telegram_id := some u.id, username := u.username,
                    first_name := u.first_name, last_name := u.last_name } }

/-- Session effect of `startComplaintForm`: seed `complaintData` from the
sender, clear the attempt counter and await the complaint name. -/
def startComplaintFormS (u : TgUser) (sess : Session) : Session :=
  { sess with
      step := .awaiting_complaint_name
      attempts := 0
      complaintData := { telegram_id := some u.id, username := u.username,
                         first_name := u.first_name, last_name := u.last_name } }

/-- The shared failure path of the validated field handlers:
`ctx.session.attempts++`, then force-cancel at 3 attempts (with the
distinct too-many-attempts message), else re-prompt showing the counter. -/
def failedAttempt (sess : Session) : Session × Outcome :=
  if 3 ≤ sess.attempts + 1 then (cancelSession sess, .attemptsExhausted)
  else ({ sess with attempts := sess.attempts + 1 }, .reprompted)

/-- `TelegramBot.handleNameInput`. -/
def handleNameInput (sess : Session) (name : String) : Session × Outcome :=
  if validateName name = false then failedAttempt sess
  else
    ({ sess with
        userData := { sess.userData with name := some name }
        step := .awaiting_age
        attempts := 0 }, .advanced)

/-- `TelegramBot.handleAgeInput`: no validation, store and advance. -/
def handleAgeInput (sess : Session) (age : String) : Session × Outcome :=
  ({ sess with
      userData := { sess.userData with age := some age }
      step := .awaiting_phone
      attempts := 0 }, .advanced)

/-- `TelegramBot.handlePhoneInput`. -/
def handlePhoneInput (sess : Session) (phone : String) : Session × Outcome :=
  if validatePhone phone = false then failedAttempt sess
  else
    ({ sess with
        userData := { sess.userData with phone := some (normalizePhone phone) }
        step := .awaiting_education
        attempts := 0 }, .advanced)

/-- `TelegramBot.handleEducationInput`: no validation, store and advance. -/
def handleEducationInput (sess : Session) (education : String) : Session × Outcome :=
  ({ sess with
      userData := { sess.userData with education := some education }
      step := .awaiting_vacancy
      attempts := 0 }, .advanced)

/-- `TelegramBot.handleVacancyInput`: no validation, store and advance. -/
def handleVacancyInput (sess : Session) (vacancy : String) : Session × Outcome :=
  ({ sess with
      userData := { sess.userData with vacancy := some vacancy }
      step := .awaiting_message
      attempts := 0 }, .advanced)

/-- `TelegramBot.submitData`: reply according to the pipeline result (the
falsy-`success` arm throws into the local catch, which shows the error
message), then reset `step`, `userData` and `attempts`.  `complaintData` is
not touched. -/
def submitData (sess : Session) (appRes : SubResult) : Session × Outcome :=
  ({ sess with step := .idle, userData := {}, attempts := 0 },
   .applicationResult appRes.success)

/-- `TelegramBot.handleMessageInput`: the literal `пропустити` (compared
case-insensitively) skips the optional message; a message longer than 1000
characters is re-prompted without touching the attempt counter; otherwise
the message is stored and the record submitted. -/
def handleMessageInput (sess : Session) (msg : String) (appRes : SubResult) :
    Session × Outcome :=
  if jsToLower msg ≠ "пропустити" then
    if 1000 < msg.length then (sess, .tooLongReprompt)
    else
      submitData { sess with userData := { sess.userData with message := some msg } } appRes
  else submitData sess appRes

/-- `TelegramBot.handleComplaintNameInput`: any name (including `Анонім`)
is accepted. -/
def handleComplaintNameInput (sess : Session) (name : String) : Session × Outcome :=
  ({ sess with
      complaintData := { sess.complaintData with name := some name }
      step := .awaiting_complaint_text
      attempts := 0 }, .advanced)

/-- `TelegramBot.submitComplaint`: all three arms — a successful result, a
falsy or unsuccessful result, and a thrown error — reply with the success
acknowledgement, after which the session is reset to idle with
`complaintData` emptied. -/
def submitComplaint (sess : Session) (api : ComplaintApi) : Session × Outcome :=
  let ack : Outcome :=
    match api with
    | .result true i => .complaintSuccessAck i
    | .result false _ => .complaintSuccessAck none
    | .noResult => .complaintSuccessAck none
    | .thrown => .complaintSuccessAck none
  ({ sess with step := .idle, complaintData := {}, attempts := 0 }, ack)

/-- `TelegramBot.handleComplaintTextInput`: a body longer than 2000 or
shorter than 10 characters goes through the counted failure path; otherwise
the text is stored and the complaint submitted. -/
def handleComplaintTextInput (sess : Session) (t : String) (capi : ComplaintApi) :
    Session × Outcome :=
  if 2000 < t.length then failedAttempt sess
  else if t.length < 10 then failedAttempt sess
  else
    submitComplaint
      { sess with complaintData := { sess.complaintData with complaint_text := some t } }
      capi

/-- `TelegramBot.handleTextMessage`: trim the text and dispatch on the
session step; at idle a hint is shown. -/
def handleTextMessage (sess : Session) (raw : String) (appRes : SubResult)
    (capi : ComplaintApi) : Session × Outcome :=
  match sess.step with
  | .awaiting_name => handleNameInput sess (jsTrim raw)
  | .awaiting_age => handleAgeInput sess (jsTrim raw)
  | .awaiting_phone => handlePhoneInput sess (jsTrim raw)
  | .awaiting_education => handleEducationInput sess (jsTrim raw)
  | .awaiting_vacancy => handleVacancyInput sess (jsTrim raw)
  | .awaiting_message => handleMessageInput sess (jsTrim raw) appRes
  | .awaiting_complaint_name => handleComplaintNameInput sess (jsTrim raw)
  | .awaiting_complaint_text => handleComplaintTextInput sess (jsTrim raw) capi
  | .idle => (sess, .idleHint)

/-- Telegraf matching of the `/start` command (exact or with a payload). -/
def isStartCmd (raw : String) : Bool :=
  raw == "/start" || strStartsWith raw "/start "

/-- Telegraf matching of the `/cancel` command. -/
def isCancelCmd (raw : String) : Bool :=
  raw == "/cancel" || strStartsWith raw "/cancel "

/-- Telegraf matching of the `/help` command. -/
def isHelpCmd (raw : String) : Bool :=
  raw == "/help" || strStartsWith raw "/help "

/-- The complete dispatch for one inbound text event, following the
registration order of src/bot.js: the command handlers, the `hears`
matchers for the keyboard buttons (exact string equality on the raw text),
and finally the generic text handler.  No middleware on this path reads the
user cache or the risk counters — the only middlewares are the transport
rate limit, session injection, the catch-all error handler and logging. -/
def onText (u : TgUser) (sess : Session) (raw : String) (appRes : SubResult)
    (capi : ComplaintApi) : Session × Outcome :=
  if isStartCmd raw then (showMainMenuS sess, .menu)
  else if isCancelCmd raw then (cancelSession sess, .cancelled)
  else if raw == "❌ Скасувати" then (cancelSession sess, .cancelled)
  else if raw == "📝 Заповнити анкету" then (startFormS u sess, .formStarted)
  else if raw == "💼 Вакансії" then (sess, .info)
  else if raw == "📜 Контракт 18-24" then (sess, .info)
  else if raw == "🔄 Переведення з іншої військової частини" then (sess, .info)
  else if raw == "❓ Повернення після СЗЧ" then (sess, .info)
  else if raw == "🚨 Питання до військової частини" then (startComplaintFormS u sess, .complaintFormStarted)
  else if raw == "🔙 Назад до меню" then (showMainMenuS sess, .menu)
  else if isHelpCmd raw then (sess, .helpShown)
  else handleTextMessage sess raw appRes capi

/-- The disjunction of all conditions checked by `onText` before the
generic text handler. -/
def isMenuOrCommand (raw : String) : Bool :=
  isStartCmd raw || isCancelCmd raw ||
  raw == "❌ Скасувати" || raw == "📝 Заповнити анкету" ||
  raw == "💼 Вакансії" || raw == "📜 Контракт 18-24" ||
  raw == "🔄 Переведення з іншої військової частини" ||
  raw == "❓ Повернення після СЗЧ" ||
  raw == "🚨 Питання до військової частини" ||
  raw == "🔙 Назад до меню" || isHelpCmd raw

/-! ### Concrete data used in the closed statements -/

/-- A sink answering 503 on the first two delivery attempts and 200 with
id 42 on the third. -/
def thirdTrySink : Nat → SinkResp :=
  fun k => if k < 2 then .server5xx else .ok 42

/-- A sink answering 503 on every delivery attempt. -/
def failSink : Nat → SinkResp :=
  fun _ => .server5xx

/-- A completed application record that passes
`validateSubmissionData`. -/
def sampleRecord : UserData :=
  { telegram_id := some 1, name := some "Шевченко Тарас",
    phone := some "+380501234567" }

/-- A message of 1001 characters. -/
def longMsg : String :=
  String.mk (List.replicate 1001 'a')

/-! ## Helper lemmas -/

theorem phoneClean_cons_keep (a : Char) (l : List Char) (h : phoneStrippable a = false) :
    phoneClean (a :: l) = a :: phoneClean l := by
  simp [phoneClean, List.filter_cons, h]

theorem phoneRegexTest_shape (l : List Char) (h : phoneRegexTest l = true) :
    (∃ r, l = '+' :: '7' :: r) ∨ (∃ r, l = '8' :: r) := by
  rcases l with _ | ⟨c₁, _ | ⟨c₂, rest⟩⟩
  · simp [phoneRegexTest] at h
  · by_cases hc : c₁ = '8'
    · exact Or.inr ⟨[], by rw [hc]⟩
    · simp [phoneRegexTest, hc] at h
  · by_cases h12 : c₁ = '+' ∧ c₂ = '7'
    · exact Or.inl ⟨rest, by rw [h12.1, h12.2]⟩
    · by_cases h8 : c₁ = '8'
      · exact Or.inr ⟨c₂ :: rest, by rw [h8]⟩
      · simp [phoneRegexTest, h12, h8] at h

/-- The base pattern of `validatePhone` demands a `+7` or `8` prefix on the
raw input, while its length checks demand a `+38` or `0` prefix on the
cleaned input; stripping never removes the leading `+7`/`8`, so the two
requirements are incompatible and the validator rejects every list of
characters. -/
theorem validatePhoneCore_false (l : List Char) : validatePhoneCore l = false := by
  by_cases hreg : phoneRegexTest l = false
  · simp [validatePhoneCore, hreg]
  · have hreg' : phoneRegexTest l = true := by
      revert hreg; cases phoneRegexTest l <;> simp
    have c₁ : (('+' : Char) == '+') = true := by decide
    have c₂ : (('3' : Char) == '7') = false := by decide
    have c₃ : (('0' : Char) == '+') = false := by decide
    have c₄ : (('+' : Char) == '8') = false := by decide
    have c₅ : (('0' : Char) == '8') = false := by decide
    rcases phoneRegexTest_shape l hreg' with ⟨r, rfl⟩ | ⟨r, rfl⟩
    · have e : phoneClean ('+' :: '7' :: r) = '+' :: '7' :: phoneClean r := by
        rw [phoneClean_cons_keep _ _ (by decide), phoneClean_cons_keep _ _ (by decide)]
      simp [validatePhoneCore, hreg', e, List.isPrefixOf, c₁, c₂, c₃]
    · have e : phoneClean ('8' :: r) = '8' :: phoneClean r :=
        phoneClean_cons_keep _ _ (by decide)
      simp [validatePhoneCore, hreg', e, List.isPrefixOf, c₄, c₅]

/-- `validatePhone` rejects every input string. -/
theorem validatePhone_false (s : String) : validatePhone s = false := by
  unfold validatePhone
  split
  · rfl
  · exact validatePhoneCore_false _

/-! ## Claims -/

/-- C1: the spec requires `validatePhone` to accept `"0501234567"` and
`"+380501234567"` and `normalizePhone` to map them to `"+380501234567"`.
The code rejects both (its base pattern demands a `+7`/`8` prefix) and
`normalizePhone` therefore returns both inputs unchanged, so the national
form is *not* normalized to the international form.  The last two conjuncts
evaluate the WordPress client's own phone pattern, which *does* accept
exactly these two formats — evidence that the `+7|8` pattern in the
validation service contradicts the rest of the code. -/
theorem phone_validation_contradiction :
    validatePhone "0501234567" = false
  ∧ normalizePhone "0501234567" = "0501234567"
  ∧ validatePhone "+380501234567" = false
  ∧ normalizePhone "+380501234567" = "+380501234567"
  ∧ isValidPhoneWP "0501234567" = true
  ∧ isValidPhoneWP "+380501234567" = true := by decide

/-- C2: a sink failing with 503 on attempts 1–2 and succeeding on attempt 3
yields `success = true`, as claimed; but a sink failing with 503 on *every*
attempt never terminates — `retrySubmission` is always re-entered with
`attempt = 1`, so the `maxRetries = 3` bound never fires and no amount of
fuel produces a result, contradicting the claimed stop after 3 attempts. -/
theorem submission_retry_unbounded :
    submitUserDataM thirdTrySink sampleRecord 5 0 = some { success := true, id := some 42 }
  ∧ ∀ fuel calls, submitUserDataM failSink sampleRecord fuel calls = none := by
  constructor
  · decide
  · have hv : validateSubmissionData (payloadOf sampleRecord) = true := by decide
    intro fuel
    induction fuel with
    | zero => intro calls; rfl
    | succ n ih =>
        intro calls
        simp [submitUserDataM, hv, failSink]
        exact ih (calls + 1)

/-- C3 counterexample: a profile blocked for 60 minutes at time 0 is still
blocked at time 600000 (10 minutes in, 50 minutes remaining), yet the text
pipeline — which never consults `checkUserBlock` — runs a normal state
machine step for the very same moment: a valid name in `awaiting_name`
advances to `awaiting_age` instead of being rejected. -/
theorem blocked_user_event_still_processed :
    (checkUserBlock (some (blockUser none 0 "suspicious_activity" 60)) 600000).1.blocked = true
  ∧ (checkUserBlock (some (blockUser none 0 "suspicious_activity" 60)) 600000).1.remainingTime = some 50
  ∧ onText { id := 1 } { step := Step.awaiting_name } "Шевченко Тарас" { success := false } ComplaintApi.thrown
      = ({ step := Step.awaiting_age, userData := { name := some "Шевченко Тарас" } },
         Outcome.advanced) := by decide

/-- C3 (amended): `checkUserBlock`, when consulted on a currently-blocked
profile, does report the block together with the remaining minutes
(`⌈(blockedUntil - now) / 60000⌉`); but no inbound-event handler consults
it, so the state machine processes events from blocked users (see the
counterexample). -/
theorem checkUserBlock_reports_remaining (u : CachedUser) (bu now : Nat)
    (hb : u.blocked = true) (hbu : u.blockedUntil = some bu) (hnow : ¬ bu < now) :
    (checkUserBlock (some u) now).1 =
      { blocked := true, reason := u.reason, blockedUntil := some bu,
        remainingTime := some ((bu - now + 59999) / 60000) } := by
  simp [checkUserBlock, hb, hbu, hnow]

/-- C3 witness: a block of 60 minutes issued at 100000 ms, read at
700000 ms, reports 50 remaining minutes. -/
theorem checkUserBlock_reports_remaining_witness :
    (checkUserBlock (some (blockUser none 100000 "flood" 60)) 700000).1 =
      { blocked := true, reason := some "flood", blockedUntil := some 3700000,
        remainingTime := some 50 } :=
  checkUserBlock_reports_remaining (blockUser none 100000 "flood" 60) 3700000 700000
    rfl rfl (by decide)

/-- C4 counterexample: cancelling from `awaiting_complaint_text` yields an
idle session whose `complaintData` still carries the collected name — the
complaint fields are *not* emptied, refuting `state = idle ⇒ fields empty`
for the complaint map. -/
theorem cancel_leaves_complaint_fields :
    (onText { id := 1 }
        { step := Step.awaiting_complaint_text, complaintData := { name := some "Анонім" } }
        "❌ Скасувати" { success := false } ComplaintApi.thrown).1
      = { step := Step.idle, complaintData := { name := some "Анонім" } }
  ∧ ({ name := some "Анонім" } : ComplaintData) ≠ ({} : ComplaintData) := by decide

/-- C4 (amended): both cancellation routes (the keyboard button and the
`/cancel` command) reset any session to `idle` with `userData` emptied and
the attempt counter cleared, but leave `complaintData` exactly as it was. -/
theorem cancel_empties_userData_only (u : TgUser) (sess : Session)
    (appRes : SubResult) (capi : ComplaintApi) :
    onText u sess "❌ Скасувати" appRes capi =
      ({ sess with step := Step.idle, userData := {}, attempts := 0 }, Outcome.cancelled)
  ∧ onText u sess "/cancel" appRes capi =
      ({ sess with step := Step.idle, userData := {}, attempts := 0 }, Outcome.cancelled) :=
  ⟨rfl, rfl⟩

set_option maxRecDepth 100000 in
/-- C5 counterexample: in `awaiting_message`, an over-long message (1001
characters) with the attempt counter already at 2 is re-prompted *without*
incrementing the counter and without ever force-cancelling — this field
step neither counts failed validations nor enforces the 3-attempt limit. -/
theorem message_step_failure_uncounted :
    handleMessageInput { step := Step.awaiting_message, attempts := 2 } longMsg { success := false }
      = ({ step := Step.awaiting_message, attempts := 2 }, Outcome.tooLongReprompt)
  ∧ 1000 < longMsg.length := by decide

/-- C5 (amended): for the three *counted* field steps (application name,
application phone, complaint text), a failed validation takes the shared
failure path: the attempt counter is incremented and forced cancellation
happens exactly when the incremented counter reaches 3 — never before,
never after.  (The application message step is exempt: its length failure
is not counted, see the counterexample.) -/
theorem counted_attempt_policy (sess : Session) (t : String) (capi : ComplaintApi)
    (hn : validateName t = false) (hlen : 2000 < t.length ∨ t.length < 10) :
    handleNameInput sess t = failedAttempt sess
  ∧ handlePhoneInput sess t = failedAttempt sess
  ∧ handleComplaintTextInput sess t capi = failedAttempt sess
  ∧ failedAttempt sess =
      (if 3 ≤ sess.attempts + 1 then (cancelSession sess, Outcome.attemptsExhausted)
       else ({ sess with attempts := sess.attempts + 1 }, Outcome.reprompted)) := by
  refine ⟨?_, ?_, ?_, rfl⟩
  · simp [handleNameInput, hn]
  · simp [handlePhoneInput, validatePhone_false]
  · unfold handleComplaintTextInput
    rcases hlen with h | h
    · rw [if_pos h]
    · by_cases h2 : 2000 < t.length
      · rw [if_pos h2]
      · rw [if_neg h2, if_pos h]

/-- C5 witness: the single letter `x` fails the name validator (and is
shorter than 10 characters), so the counted failure path applies to it. -/
theorem counted_attempt_policy_witness :
    validateName "x" = false
  ∧ handleNameInput { step := Step.awaiting_name } "x" = failedAttempt { step := Step.awaiting_name } :=
  ⟨by decide,
   (counted_attempt_policy { step := Step.awaiting_name } "x" ComplaintApi.thrown
      (by decide) (Or.inr (by decide))).1⟩

/-- C6: whatever the sink call does — succeeds, returns a falsy or
unsuccessful result, or throws — `submitComplaint` replies with the success
acknowledgement and resets the session to idle with the complaint fields
emptied: complaint delivery failures are masked as success. -/
theorem complaint_failures_masked (sess : Session) (api : ComplaintApi) :
    (submitComplaint sess api).1.step = Step.idle
  ∧ (submitComplaint sess api).1.complaintData = {}
  ∧ (submitComplaint sess api).1.attempts = 0
  ∧ ∃ i, (submitComplaint sess api).2 = Outcome.complaintSuccessAck i := by
  refine ⟨rfl, rfl, rfl, ?_⟩
  cases api with
  | result s i => cases s <;> exact ⟨_, rfl⟩
  | noResult => exact ⟨none, rfl⟩
  | thrown => exact ⟨none, rfl⟩

/-- C7 counterexample: `Іван` is a 4-letter Ukrainian name (Cyrillic block,
no digits) that the claim says must be accepted, yet `validateName` rejects
it — its character class covers only Russian Cyrillic (а-яё) and ASCII
Latin, and `І` (U+0406) falls outside it. -/
theorem ukrainian_letters_rejected :
    validateName "Іван" = false
  ∧ "Іван".data.length = 4
  ∧ ("Іван".data.all fun c => !c.isDigit) = true
  ∧ ("Іван".data.all fun c => decide (0x400 ≤ c.toNat) && decide (c.toNat ≤ 0x4FF)) = true := by
  decide

/-- C7 (amended): `validateName` only accepts strings over the restricted
class `[а-яёА-ЯЁa-zA-Z\s\-]`: any trimmed input containing a character
outside that class (for example the Ukrainian letters і, ї, є, ґ) is
rejected. -/
theorem validateName_requires_class (s : String) (c : Char)
    (hmem : c ∈ jsTrimList s.data) (hbad : isNameClassChar c = false) :
    validateName s = false := by
  unfold validateName
  split
  · rfl
  · split
    · rfl
    · have hall : (jsTrimList s.data).all isNameClassChar = false := by
        by_contra hcon
        have htrue : (jsTrimList s.data).all isNameClassChar = true := by
          revert hcon; cases (jsTrimList s.data).all isNameClassChar <;> simp
        have := List.all_eq_true.mp htrue c hmem
        rw [hbad] at this
        exact Bool.false_ne_true this
      have hreg : nameRegexTest (jsTrimList s.data) = false := by
        simp [nameRegexTest, hall]
      rw [hreg]
      simp

/-- C7 witness: the amended theorem applied to `Іван` and its first
letter. -/
theorem validateName_requires_class_witness : validateName "Іван" = false :=
  validateName_requires_class "Іван" 'І' (by decide) (by decide)

/-- C8: the risk score of a profile with no recorded actions is 0; a
profile with `submit_attempt = 6` and no other signal (rate at most 5 per
minute, no validation failures, no cancels, at most 10 starts) scores at
least 25; and every score saturates at 100. -/
theorem risk_score_properties :
    (∀ t : Rat, calculateRiskScore {} t = 0)
  ∧ (∀ (st : UserStats) (t : Rat),
      st.actions.submit_attempt = 6 →
      (st.totalActions : Rat) / max t 1 ≤ 5 →
      st.actions.validation_failed = 0 →
      st.actions.cancel = 0 →
      st.actions.start ≤ 10 →
      25 ≤ calculateRiskScore st t)
  ∧ (∀ (st : UserStats) (t : Rat), calculateRiskScore st t ≤ 100) := by
  refine ⟨?_, ?_, ?_⟩
  · intro t
    simp [calculateRiskScore]
  · intro st t h6 happ hv hc hs
    have h5 : ¬ (5 : Rat) < (st.totalActions : Rat) / max t 1 := not_lt.mpr happ
    have h10 : ¬ (10 : Rat) < (st.totalActions : Rat) / max t 1 :=
      not_lt.mpr (happ.trans (by norm_num))
    have hstart : ¬ 10 < st.actions.start := not_lt.mpr hs
    have hsub : 5 < st.actions.submit_attempt := by omega
    unfold calculateRiskScore
    rw [if_neg h5, if_neg h10, if_neg hstart, if_pos hsub]
    by_cases ht : st.totalActions = 0
    · rw [if_pos ht, if_pos ht, if_pos hv, if_pos hc]
      decide
    · have hv' : ¬ ((1 : Rat) / 2 <
          (st.actions.validation_failed : Rat) / (st.totalActions : Rat)) := by
        rw [hv]; push_cast; rw [zero_div]; norm_num
      have hc' : ¬ ((3 : Rat) / 10 <
          (st.actions.cancel : Rat) / (st.totalActions : Rat)) := by
        rw [hc]; push_cast; rw [zero_div]; norm_num
      rw [if_neg ht, if_neg ht, if_neg hv', if_neg hc']
      decide
  · intro st t
    unfold calculateRiskScore
    exact Nat.min_le_right _ _

/-- C8 witness: the zero profile at 5 elapsed minutes scores 0, and a
profile with 6 actions — all of them submit attempts — over 6 minutes
(rate 1 per minute) scores at least 25. -/
theorem risk_score_properties_witness :
    calculateRiskScore {} 5 = 0
  ∧ 25 ≤ calculateRiskScore { totalActions := 6, actions := { submit_attempt := 6 } } 6 :=
  ⟨risk_score_properties.1 5,
   risk_score_properties.2.1 { totalActions := 6, actions := { submit_attempt := 6 } } 6
     rfl
     (by rw [show max (6 : Rat) 1 = 6 from max_eq_left (by norm_num)]; norm_num)
     rfl rfl (by norm_num)⟩

/-- C9: `normalizePhone` is idempotent on every input string (it returns
any input rejected by `validatePhone` unchanged, and `validatePhone`
rejects everything). -/
theorem normalizePhone_idempotent (s : String) :
    normalizePhone (normalizePhone s) = normalizePhone s := by
  simp [normalizePhone, validatePhone_false]

/-- C10: for any text that is not a keyboard button or command, the age,
education and vacancy steps store the trimmed text unchanged under the
corresponding field, reset the attempt counter to 0 and advance to the
successor state — no validator can make these transitions fail. -/
theorem unvalidated_steps (u : TgUser) (sess : Session) (raw : String)
    (appRes : SubResult) (capi : ComplaintApi) (h : isMenuOrCommand raw = false) :
    onText u { sess with step := Step.awaiting_age } raw appRes capi =
      ({ sess with
          step := Step.awaiting_phone
          userData := { sess.userData with age := some (jsTrim raw) }
          attempts := 0 },
       Outcome.advanced)
  ∧ onText u { sess with step := Step.awaiting_education } raw appRes capi =
      ({ sess with
          step := Step.awaiting_vacancy
          userData := { sess.userData with education := some (jsTrim raw) }
          attempts := 0 },
       Outcome.advanced)
  ∧ onText u { sess with step := Step.awaiting_vacancy } raw appRes capi =
      ({ sess with
          step := Step.awaiting_message
          userData := { sess.userData with vacancy := some (jsTrim raw) }
          attempts := 0 },
       Outcome.advanced) := by
  simp only [isMenuOrCommand, Bool.or_eq_false_iff] at h
  obtain ⟨⟨⟨⟨⟨⟨⟨⟨⟨⟨h1, h2⟩, h3⟩, h4⟩, h5⟩, h6⟩, h7⟩, h8⟩, h9⟩, h10⟩, h11⟩ := h
  refine ⟨?_, ?_, ?_⟩ <;>
    simp [onText, handleTextMessage, handleAgeInput, handleEducationInput,
          handleVacancyInput, h1, h2, h3, h4, h5, h6, h7, h8, h9, h10, h11]

/-- C10 witness: the age answer `25` (not a button or command) is stored
verbatim and the session advances to the phone step. -/
theorem unvalidated_steps_witness :
    onText { id := 1 } { step := Step.awaiting_age } "25" { success := false } ComplaintApi.thrown =
      ({ step := Step.awaiting_phone, userData := { age := some (jsTrim "25") } },
       Outcome.advanced) :=
  (unvalidated_steps { id := 1 } {} "25" { success := false } ComplaintApi.thrown (by decide)).1

end WPBot
